import Mathlib

/-!
Verification of the porkbun-ddns DDNS updater core (`porkbunddns.go`) via a
shallow embedding in Lean 4.

The Go code is sequential and performs HTTP I/O at four points: resolving the
current IPv4 and IPv6 addresses, retrieving the domain's DNS record set, and
editing one record by name and type.  The embedding makes the outcomes of
those external calls explicit parameters (an `Env` value): each HTTP
interaction is represented by its observable result (transport failure, body
read failure, JSON parse failure, or a parsed response together with the raw
body).  The pure logic of each Go function is translated directly; the
`fmt.Printf` progress lines are ignored (they do not affect control flow or
results), and the list of edit calls actually issued is returned as an
explicit trace so that claims about "which update calls were made" can be
stated.
-/

namespace PorkbunDDNS

deriving instance DecidableEq for Except

/-- Go's `strings.TrimSpace`: the string with leading and trailing whitespace
characters removed.  (Go trims by `unicode.IsSpace`; the embedding uses
`Char.isWhitespace`, which agrees on the ASCII whitespace that address-echo
services emit.) -/
def trimSpace (s : String) : String :=
  ⟨((s.data.dropWhile Char.isWhitespace).reverse.dropWhile Char.isWhitespace).reverse⟩

/-- `Config` from porkbunddns.go (lines 12-20). -/
structure Config where
  APIKey : String
  APISecret : String
  Domain : String
  Subdomains : List String
  TTL : Int
  IPv4File : String
  IPv6File : String
deriving DecidableEq, Repr

/-- `PorkbunResponse` from porkbunddns.go (lines 29-32): the parsed JSON body
of an edit call. -/
structure PorkbunResponse where
  Status : String
  Message : String
deriving DecidableEq, Repr

/-- `DNSRecord` from porkbunddns.go (lines 34-41). -/
structure DNSRecord where
  ID : String
  Name : String
  «Type» : String
  Content : String
  TTL : String
  Prio : String
deriving DecidableEq, Repr

/-- `RetrieveResponse` from porkbunddns.go (lines 43-46): the parsed JSON body
of a retrieve call. -/
structure RetrieveResponse where
  Status : String
  Records : List DNSRecord
deriving DecidableEq, Repr

/-- Observable outcome of an `http.Get` followed by `io.ReadAll`: the request
can fail to be sent, the body can fail to be read, or a body is obtained. -/
inductive GetResult where
  | sendError (msg : String)
  | readError (msg : String)
  | ok (body : String)
deriving DecidableEq, Repr

/-- Observable outcome of an `http.Post` followed by `io.ReadAll` and
`json.Unmarshal` into a response of type `α`: transport failure, body read
failure, JSON parse failure, or the raw body together with its parsed form.
(`json.Marshal` of the request structs in this program only serialises
strings and an int and cannot fail, so no marshal-failure case is modelled.) -/
inductive PostResult (α : Type) where
  | sendError (msg : String)
  | readError (msg : String)
  | parseError (msg : String)
  | ok (body : String) (parsed : α)
deriving DecidableEq, Repr

/-- `getCurrentIPv4` from porkbunddns.go (lines 48-61), as a function of the
outcome of the GET to the IPv4 echo endpoint.  On success the result is the
response body with surrounding whitespace stripped (`strings.TrimSpace`,
embedded as `trimSpace`); no validation of address syntax is performed. -/
def getCurrentIPv4 (r : GetResult) : Except String String :=
  match r with
  | .sendError e => .error ("failed to get current IPv4. err=" ++ e)
  | .readError e => .error ("failed to read response body. err=" ++ e)
  | .ok body => .ok (trimSpace body)

/-- `getCurrentIPv6` from porkbunddns.go (lines 63-76), as a function of the
outcome of the GET to the IPv6-capable echo endpoint. -/
def getCurrentIPv6 (r : GetResult) : Except String String :=
  match r with
  | .sendError e => .error ("failed to get current IPv6. err=" ++ e)
  | .readError e => .error ("failed to read response body. err=" ++ e)
  | .ok body => .ok (trimSpace body)

/-- `retrieveDNSRecords` from porkbunddns.go (lines 78-115), as a function of
the outcome of the POST to `/dns/retrieve/{domain}`.  Returns the record set
only when the parsed response has `status == "SUCCESS"`; any other status is
an error carrying the raw body. -/
def retrieveDNSRecords (r : PostResult RetrieveResponse) :
    Except String (List DNSRecord) :=
  match r with
  | .sendError e => .error ("failed to send request. err=" ++ e)
  | .readError e => .error ("failed to read response. err=" ++ e)
  | .parseError e => .error ("failed to parse response. err=" ++ e)
  | .ok body parsed =>
      if parsed.Status = "SUCCESS" then .ok parsed.Records
      else .error ("API error. body=" ++ body)

/-- The `expectedName` computation inside `findDNSRecord` (porkbunddns.go
lines 118-121): the base domain when the subdomain label is empty, else
`subdomain.domain`. -/
def expectedName (domain subdomain : String) : String :=
  if subdomain ≠ "" then subdomain ++ "." ++ domain else domain

/-- `findDNSRecord` from porkbunddns.go (lines 117-129): first record in the
fetched set whose type and name match. -/
def findDNSRecord (records : List DNSRecord) (domain subdomain recordType : String) :
    Option DNSRecord :=
  records.find? (fun r => r.«Type» == recordType && r.Name == expectedName domain subdomain)

/-- `updatePorkbunDNS` from porkbunddns.go (lines 131-168), as a function of
the outcome of the POST to `/dns/editByNameType/{domain}/{type}/{subdomain}`.
Succeeds exactly when the parsed response has `status == "SUCCESS"`; any
other status is an error carrying the raw body. -/
def updatePorkbunDNS (r : PostResult PorkbunResponse) : Except String Unit :=
  match r with
  | .sendError e => .error ("failed to send request. err=" ++ e)
  | .readError e => .error ("failed to read response. err=" ++ e)
  | .parseError e => .error ("failed to parse response. err=" ++ e)
  | .ok body parsed =>
      if parsed.Status = "SUCCESS" then .ok ()
      else .error ("API error. body=" ++ body)

/-- One edit call as issued by the orchestrator: the subdomain label passed in
the URL, the address written as content, and the record type ("A" or "AAAA").
Used to record the trace of `updatePorkbunDNS` invocations. -/
structure UpsertCall where
  subdomain : String
  ip : String
  recordType : String
deriving DecidableEq, Repr

/-- The outcomes of all external HTTP interactions a run can perform: the two
address-echo GETs, the record-set retrieval POST, and — for each possible
(subdomain, content, recordType) triple — the edit POST's outcome. -/
structure Env where
  ipv4Get : GetResult
  ipv6Get : GetResult
  retrievePost : PostResult RetrieveResponse
  editPost : String → String → String → PostResult PorkbunResponse

/-- The `displayName` computation inside the update loop of `UpdateDDNS`
(porkbunddns.go lines 221-226): base domain for the empty label, else
`subdomain.domain`. -/
def displayName (domain subdomain : String) : String :=
  if subdomain = "" then domain else subdomain ++ "." ++ domain

/-- The per-family staleness test of `UpdateDDNS` (porkbunddns.go lines
190-216, once per family): update needed when the record is absent from the
fetched set or its content differs from the current address. -/
def recordNeedsUpdate (records : List DNSRecord)
    (domain subdomain recordType current : String) : Bool :=
  match findDNSRecord records domain subdomain recordType with
  | some r => r.Content != current
  | none => true

/-- The update loop of `UpdateDDNS` (porkbunddns.go lines 220-241): for each
subdomain in list order, upsert the A record if IPv4 needs an update, then
the AAAA record if IPv6 does; the first failed edit aborts the run with an
error naming the record and family.  Returns the run result together with
the trace of edit calls issued (the failing call included). -/
def updateSubdomains (env : Env) (config : Config) (currentIPv4 currentIPv6 : String)
    (ipv4NeedsUpdate ipv6NeedsUpdate : Bool) :
    List String → Except String Unit × List UpsertCall
  | [] => (.ok (), [])
  | subdomain :: rest =>
    let dName := displayName config.Domain subdomain
    if ipv4NeedsUpdate then
      match updatePorkbunDNS (env.editPost subdomain currentIPv4 "A") with
      | .error e =>
          (.error ("error updating IPv4 DDNS for " ++ dName ++ ". err=" ++ e),
           [⟨subdomain, currentIPv4, "A"⟩])
      | .ok _ =>
        if ipv6NeedsUpdate then
          match updatePorkbunDNS (env.editPost subdomain currentIPv6 "AAAA") with
          | .error e =>
              (.error ("error updating IPv6 DDNS for " ++ dName ++ ". err=" ++ e),
               [⟨subdomain, currentIPv4, "A"⟩, ⟨subdomain, currentIPv6, "AAAA"⟩])
          | .ok _ =>
            let r := updateSubdomains env config currentIPv4 currentIPv6
              ipv4NeedsUpdate ipv6NeedsUpdate rest
            (r.1, ⟨subdomain, currentIPv4, "A"⟩ :: ⟨subdomain, currentIPv6, "AAAA"⟩ :: r.2)
        else
          let r := updateSubdomains env config currentIPv4 currentIPv6
            ipv4NeedsUpdate ipv6NeedsUpdate rest
          (r.1, ⟨subdomain, currentIPv4, "A"⟩ :: r.2)
    else
      if ipv6NeedsUpdate then
        match updatePorkbunDNS (env.editPost subdomain currentIPv6 "AAAA") with
        | .error e =>
            (.error ("error updating IPv6 DDNS for " ++ dName ++ ". err=" ++ e),
             [⟨subdomain, currentIPv6, "AAAA"⟩])
        | .ok _ =>
          let r := updateSubdomains env config currentIPv4 currentIPv6
            ipv4NeedsUpdate ipv6NeedsUpdate rest
          (r.1, ⟨subdomain, currentIPv6, "AAAA"⟩ :: r.2)
      else
        let r := updateSubdomains env config currentIPv4 currentIPv6
          ipv4NeedsUpdate ipv6NeedsUpdate rest
        (r.1, r.2)

/-- `UpdateDDNS` from porkbunddns.go (lines 170-244).  `none` models the Go
panic on `config.Subdomains[0]` when the configured subdomain list is empty;
otherwise the result is the run's outcome together with the trace of edit
calls issued. -/
def UpdateDDNS (env : Env) (config : Config) :
    Option (Except String Unit × List UpsertCall) :=
  match getCurrentIPv4 env.ipv4Get with
  | .error e => some (.error e, [])
  | .ok currentIPv4 =>
  match getCurrentIPv6 env.ipv6Get with
  | .error e => some (.error e, [])
  | .ok currentIPv6 =>
  match retrieveDNSRecords env.retrievePost with
  | .error e => some (.error ("failed to retrieve DNS records. err=" ++ e), [])
  | .ok records =>
  match config.Subdomains[0]? with
  | none => none
  | some firstSubdomain =>
    let ipv4NeedsUpdate := recordNeedsUpdate records config.Domain firstSubdomain "A" currentIPv4
    let ipv6NeedsUpdate := recordNeedsUpdate records config.Domain firstSubdomain "AAAA" currentIPv6
    if ipv4NeedsUpdate || ipv6NeedsUpdate then
      some (updateSubdomains env config currentIPv4 currentIPv6
        ipv4NeedsUpdate ipv6NeedsUpdate config.Subdomains)
    else
      some (.ok (), [])

/-- The full list of edit calls a run plans once the decision pair is fixed:
for every subdomain in list order, an A upsert when `c4` and then an AAAA
upsert when `c6`.  Used to state ordering and consistency properties of the
update loop. -/
def plannedCalls (ip4 ip6 : String) (c4 c6 : Bool) : List String → List UpsertCall
  | [] => []
  | subdomain :: rest =>
    (if c4 then [⟨subdomain, ip4, "A"⟩] else []) ++
    (if c6 then [⟨subdomain, ip6, "AAAA"⟩] else []) ++
    plannedCalls ip4 ip6 c4 c6 rest

/-- The two last-known-address cache artifacts of Strategy A, one per address
family; `none` models a missing file (never-seen), which Strategy A treats as
an empty string rather than an error. -/
structure CacheState where
  ipv4Artifact : Option String
  ipv6Artifact : Option String
deriving DecidableEq, Repr

/-- Modelled from the spec: the Strategy A (file-cache) variant of the update
workflow, whose implementation is part of the codebase but not among the
provided source files (the `Config` fields `IPv4File` and `IPv6File` are its
declarations).  Per spec sections 4.2 and 4.4: read the last-known address
per family (missing artifact = empty string, forcing an update); a family
changed when the current address differs from the last-known one; if neither
changed, terminate successfully with no writes; otherwise run the same
per-subdomain upsert loop, and persist the new addresses to the cache
artifacts only after every upsert has succeeded — on any failure the
artifacts keep their pre-run values.  Returns the run result, the post-run
cache state, and the trace of edit calls issued. -/
def UpdateDDNSCached (env : Env) (config : Config) (cache : CacheState) :
    Except String Unit × CacheState × List UpsertCall :=
  match getCurrentIPv4 env.ipv4Get with
  | .error e => (.error e, cache, [])
  | .ok currentIPv4 =>
  match getCurrentIPv6 env.ipv6Get with
  | .error e => (.error e, cache, [])
  | .ok currentIPv6 =>
    let lastIPv4 := cache.ipv4Artifact.getD ""
    let lastIPv6 := cache.ipv6Artifact.getD ""
    let ipv4NeedsUpdate := currentIPv4 != lastIPv4
    let ipv6NeedsUpdate := currentIPv6 != lastIPv6
    if ipv4NeedsUpdate || ipv6NeedsUpdate then
      match updateSubdomains env config currentIPv4 currentIPv6
        ipv4NeedsUpdate ipv6NeedsUpdate config.Subdomains with
      | (.error e, calls) => (.error e, cache, calls)
      | (.ok _, calls) => (.ok (), ⟨some currentIPv4, some currentIPv6⟩, calls)
    else
      (.ok (), cache, [])

/-! ### Concrete fixtures used by witness theorems -/

/-- A published A record for the base domain. -/
def recA0 : DNSRecord := ⟨"101", "example.com", "A", "1.2.3.4", "600", "0"⟩

/-- A published AAAA record for the base domain. -/
def recAAAA0 : DNSRecord := ⟨"102", "example.com", "AAAA", "::1", "600", "0"⟩

/-- A fetched record set holding the two records above. -/
def fixtureRecords : List DNSRecord := [recA0, recAAAA0]

/-- A configuration updating the base domain and `www`. -/
def fixtureConfig : Config :=
  ⟨"key", "secret", "example.com", ["", "www"], 600, "ip4.txt", "ip6.txt"⟩

/-- The same configuration with an empty subdomain list. -/
def fixtureConfigNoNames : Config :=
  ⟨"key", "secret", "example.com", [], 600, "ip4.txt", "ip6.txt"⟩

/-- All external calls succeed and the published records match the current
addresses. -/
def envAllOk : Env :=
  ⟨.ok "1.2.3.4", .ok "::1", .ok "raw" ⟨"SUCCESS", fixtureRecords⟩,
   fun _ _ _ => .ok "raw" ⟨"SUCCESS", ""⟩⟩

/-- All external calls succeed but the current IPv4 differs from the
published A record. -/
def envStale : Env :=
  ⟨.ok "5.6.7.8", .ok "::1", .ok "raw" ⟨"SUCCESS", fixtureRecords⟩,
   fun _ _ _ => .ok "raw" ⟨"SUCCESS", ""⟩⟩

/-- Like `envStale`, but every edit call for the `www` label returns a
non-success status. -/
def envEditFail : Env :=
  ⟨.ok "5.6.7.8", .ok "::1", .ok "raw" ⟨"SUCCESS", fixtureRecords⟩,
   fun sub _ _ =>
     if sub = "www" then .ok "bad-body" ⟨"ERROR", "invalid domain"⟩
     else .ok "raw" ⟨"SUCCESS", ""⟩⟩

/-! ### Helper lemmas about the update loop -/

/-- A successful pass of the update loop issued exactly the planned calls, and
every one of them received a success response. -/
lemma updateSubdomains_ok (env : Env) (config : Config) (ip4 ip6 : String)
    (c4 c6 : Bool) :
    ∀ (subs : List String) (u : Unit),
      (updateSubdomains env config ip4 ip6 c4 c6 subs).1 = .ok u →
      (updateSubdomains env config ip4 ip6 c4 c6 subs).2 = plannedCalls ip4 ip6 c4 c6 subs ∧
      ∀ c ∈ (updateSubdomains env config ip4 ip6 c4 c6 subs).2,
        updatePorkbunDNS (env.editPost c.subdomain c.ip c.recordType) = .ok () := by
  intro subs
  induction subs with
  | nil => intro u _; simp [updateSubdomains, plannedCalls]
  | cons sub rest ih =>
    intro u h
    cases c4 with
    | true =>
      cases hA : updatePorkbunDNS (env.editPost sub ip4 "A") with
      | error e => simp [updateSubdomains, hA] at h
      | ok uA =>
        cases c6 with
        | true =>
          cases hB : updatePorkbunDNS (env.editPost sub ip6 "AAAA") with
          | error e => simp [updateSubdomains, hA, hB] at h
          | ok uB =>
            simp only [updateSubdomains, hA, hB, if_true] at h ⊢
            obtain ⟨hcalls, hall⟩ := ih u h
            refine ⟨by simp [plannedCalls, hcalls], ?_⟩
            intro c hc
            simp only [List.mem_cons] at hc
            rcases hc with hc | hc | hc
            · subst hc; exact hA
            · subst hc; exact hB
            · exact hall c hc
        | false =>
          simp only [updateSubdomains, hA, Bool.false_eq_true, if_false, if_true] at h ⊢
          obtain ⟨hcalls, hall⟩ := ih u h
          refine ⟨by simp [plannedCalls, hcalls], ?_⟩
          intro c hc
          simp only [List.mem_cons] at hc
          rcases hc with hc | hc
          · subst hc; exact hA
          · exact hall c hc
    | false =>
      cases c6 with
      | true =>
        cases hB : updatePorkbunDNS (env.editPost sub ip6 "AAAA") with
        | error e => simp [updateSubdomains, hB] at h
        | ok uB =>
          simp only [updateSubdomains, hB, Bool.false_eq_true, if_false, if_true] at h ⊢
          obtain ⟨hcalls, hall⟩ := ih u h
          refine ⟨by simp [plannedCalls, hcalls], ?_⟩
          intro c hc
          simp only [List.mem_cons] at hc
          rcases hc with hc | hc
          · subst hc; exact hB
          · exact hall c hc
      | false =>
        simp only [updateSubdomains, Bool.false_eq_true, if_false] at h ⊢
        obtain ⟨hcalls, hall⟩ := ih u h
        exact ⟨by simp [plannedCalls, hcalls], hall⟩

/-- A failed pass of the update loop issued some prefix of work whose last
call is the failing one: every earlier call succeeded, the last call's edit
returned an error, and the loop's error message wraps that error with the
failing record's display name and address family. -/
lemma updateSubdomains_error (env : Env) (config : Config) (ip4 ip6 : String)
    (c4 c6 : Bool) :
    ∀ (subs : List String) (e : String),
      (updateSubdomains env config ip4 ip6 c4 c6 subs).1 = .error e →
      ∃ c prev, (updateSubdomains env config ip4 ip6 c4 c6 subs).2 = prev ++ [c] ∧
        (∀ c0 ∈ prev, updatePorkbunDNS (env.editPost c0.subdomain c0.ip c0.recordType) = .ok ()) ∧
        ∃ e0, updatePorkbunDNS (env.editPost c.subdomain c.ip c.recordType) = .error e0 ∧
          ((c.recordType = "A" ∧ c.ip = ip4 ∧
              e = "error updating IPv4 DDNS for " ++ displayName config.Domain c.subdomain
                  ++ ". err=" ++ e0) ∨
           (c.recordType = "AAAA" ∧ c.ip = ip6 ∧
              e = "error updating IPv6 DDNS for " ++ displayName config.Domain c.subdomain
                  ++ ". err=" ++ e0)) := by
  intro subs
  induction subs with
  | nil => intro e h; simp [updateSubdomains] at h
  | cons sub rest ih =>
    intro e h
    cases c4 with
    | true =>
      cases hA : updatePorkbunDNS (env.editPost sub ip4 "A") with
      | error eA =>
        simp only [updateSubdomains, hA, if_true] at h ⊢
        refine ⟨⟨sub, ip4, "A"⟩, [], by simp, by simp, eA, hA, Or.inl ⟨rfl, rfl, ?_⟩⟩
        cases h
        rfl
      | ok uA =>
        cases c6 with
        | true =>
          cases hB : updatePorkbunDNS (env.editPost sub ip6 "AAAA") with
          | error eB =>
            simp only [updateSubdomains, hA, hB, if_true] at h ⊢
            refine ⟨⟨sub, ip6, "AAAA"⟩, [⟨sub, ip4, "A"⟩], by simp, ?_, eB, hB,
              Or.inr ⟨rfl, rfl, ?_⟩⟩
            · intro c0 hc0
              simp only [List.mem_singleton] at hc0
              subst hc0; exact hA
            · cases h
              rfl
          | ok uB =>
            simp only [updateSubdomains, hA, hB, if_true] at h ⊢
            obtain ⟨c, prev, hcalls, hprev, e0, he0, hshape⟩ := ih e h
            refine ⟨c, ⟨sub, ip4, "A"⟩ :: ⟨sub, ip6, "AAAA"⟩ :: prev, by simp [hcalls], ?_,
              e0, he0, hshape⟩
            intro c0 hc0
            simp only [List.mem_cons] at hc0
            rcases hc0 with hc0 | hc0 | hc0
            · subst hc0; exact hA
            · subst hc0; exact hB
            · exact hprev c0 hc0
        | false =>
          simp only [updateSubdomains, hA, Bool.false_eq_true, if_false, if_true] at h ⊢
          obtain ⟨c, prev, hcalls, hprev, e0, he0, hshape⟩ := ih e h
          refine ⟨c, ⟨sub, ip4, "A"⟩ :: prev, by simp [hcalls], ?_, e0, he0, hshape⟩
          intro c0 hc0
          simp only [List.mem_cons] at hc0
          rcases hc0 with hc0 | hc0
          · subst hc0; exact hA
          · exact hprev c0 hc0
    | false =>
      cases c6 with
      | true =>
        cases hB : updatePorkbunDNS (env.editPost sub ip6 "AAAA") with
        | error eB =>
          simp only [updateSubdomains, hB, Bool.false_eq_true, if_false, if_true] at h ⊢
          refine ⟨⟨sub, ip6, "AAAA"⟩, [], by simp, by simp, eB, hB, Or.inr ⟨rfl, rfl, ?_⟩⟩
          cases h
          rfl
        | ok uB =>
          simp only [updateSubdomains, hB, Bool.false_eq_true, if_false, if_true] at h ⊢
          obtain ⟨c, prev, hcalls, hprev, e0, he0, hshape⟩ := ih e h
          refine ⟨c, ⟨sub, ip6, "AAAA"⟩ :: prev, by simp [hcalls], ?_, e0, he0, hshape⟩
          intro c0 hc0
          simp only [List.mem_cons] at hc0
          rcases hc0 with hc0 | hc0
          · subst hc0; exact hB
          · exact hprev c0 hc0
      | false =>
        simp only [updateSubdomains, Bool.false_eq_true, if_false] at h ⊢
        obtain ⟨c, prev, hcalls, hprev, e0, he0, hshape⟩ := ih e h
        exact ⟨c, prev, hcalls, hprev, e0, he0, hshape⟩

/-- The calls issued by the update loop always form an initial segment of the
planned call sequence fixed by the decision pair. -/
lemma updateSubdomains_trace_prefix (env : Env) (config : Config) (ip4 ip6 : String)
    (c4 c6 : Bool) :
    ∀ subs : List String, ∃ suffix,
      plannedCalls ip4 ip6 c4 c6 subs =
        (updateSubdomains env config ip4 ip6 c4 c6 subs).2 ++ suffix := by
  intro subs
  induction subs with
  | nil => exact ⟨[], by simp [updateSubdomains, plannedCalls]⟩
  | cons sub rest ih =>
    obtain ⟨suffix, hsuffix⟩ := ih
    cases c4 with
    | true =>
      cases hA : updatePorkbunDNS (env.editPost sub ip4 "A") with
      | error eA =>
        cases c6 with
        | true =>
          exact ⟨⟨sub, ip6, "AAAA"⟩ :: plannedCalls ip4 ip6 true true rest,
            by simp [updateSubdomains, plannedCalls, hA]⟩
        | false =>
          exact ⟨plannedCalls ip4 ip6 true false rest,
            by simp [updateSubdomains, plannedCalls, hA]⟩
      | ok uA =>
        cases c6 with
        | true =>
          cases hB : updatePorkbunDNS (env.editPost sub ip6 "AAAA") with
          | error eB =>
            exact ⟨plannedCalls ip4 ip6 true true rest,
              by simp [updateSubdomains, plannedCalls, hA, hB]⟩
          | ok uB =>
            exact ⟨suffix, by simp [updateSubdomains, plannedCalls, hA, hB, hsuffix]⟩
        | false =>
          exact ⟨suffix, by simp [updateSubdomains, plannedCalls, hA, hsuffix]⟩
    | false =>
      cases c6 with
      | true =>
        cases hB : updatePorkbunDNS (env.editPost sub ip6 "AAAA") with
        | error eB =>
          exact ⟨plannedCalls ip4 ip6 false true rest,
            by simp [updateSubdomains, plannedCalls, hB]⟩
        | ok uB =>
          exact ⟨suffix, by simp [updateSubdomains, plannedCalls, hB, hsuffix]⟩
      | false =>
        exact ⟨suffix, by simp [updateSubdomains, plannedCalls, hsuffix]⟩

/-- `plannedCalls` with both decisions negative plans nothing. -/
lemma plannedCalls_false_false (ip4 ip6 : String) :
    ∀ l : List String, plannedCalls ip4 ip6 false false l = [] := by
  intro l
  induction l with
  | nil => simp [plannedCalls]
  | cons s rest ih => simp [plannedCalls, ih]

/-- When every edit call gets a success response, the update loop succeeds and
issues exactly the planned calls. -/
lemma updateSubdomains_all_success (env : Env) (config : Config) (ip4 ip6 : String)
    (c4 c6 : Bool)
    (hall : ∀ sub ip t, updatePorkbunDNS (env.editPost sub ip t) = .ok ()) :
    ∀ subs : List String,
      updateSubdomains env config ip4 ip6 c4 c6 subs =
        (.ok (), plannedCalls ip4 ip6 c4 c6 subs) := by
  intro subs
  induction subs with
  | nil => simp [updateSubdomains, plannedCalls]
  | cons sub rest ih =>
    cases c4 <;> cases c6 <;> simp [updateSubdomains, plannedCalls, hall, ih]

/-- Unfolding of `UpdateDDNS` once both address resolutions and the record
retrieval have succeeded and the subdomain list is non-empty: the run is the
update loop driven by the decision pair computed from the first subdomain,
skipped entirely when neither family needs an update. -/
lemma UpdateDDNS_resolved (env : Env) (config : Config) (ip4 ip6 : String)
    (records : List DNSRecord) (s : String) (rest : List String)
    (h4 : getCurrentIPv4 env.ipv4Get = .ok ip4)
    (h6 : getCurrentIPv6 env.ipv6Get = .ok ip6)
    (hr : retrieveDNSRecords env.retrievePost = .ok records)
    (hs : config.Subdomains = s :: rest) :
    UpdateDDNS env config =
      some (if (recordNeedsUpdate records config.Domain s "A" ip4 ||
                recordNeedsUpdate records config.Domain s "AAAA" ip6) = true
        then updateSubdomains env config ip4 ip6
          (recordNeedsUpdate records config.Domain s "A" ip4)
          (recordNeedsUpdate records config.Domain s "AAAA" ip6) config.Subdomains
        else (.ok (), [])) := by
  simp only [UpdateDDNS, h4, h6, hr, hs, List.getElem?_cons_zero]
  split <;> rfl

/-! ### Claim theorems -/

/-- C5: a record-edit call succeeds exactly when the parsed JSON response's
status field equals "SUCCESS"; any other status is surfaced as an error
carrying the raw response body; and the retrieve-records call returns a
record set exactly when the call produced a parsed response whose status is
"SUCCESS" (any transport, read or parse failure, or non-success status, is an
error). -/
theorem edit_and_retrieve_success_iff_status :
    (∀ r : PostResult PorkbunResponse,
        updatePorkbunDNS r = .ok () ↔
          ∃ body p, r = .ok body p ∧ p.Status = "SUCCESS") ∧
    (∀ (body : String) (p : PorkbunResponse), p.Status ≠ "SUCCESS" →
        updatePorkbunDNS (.ok body p) = .error ("API error. body=" ++ body)) ∧
    (∀ r : PostResult RetrieveResponse,
        (∃ recs, retrieveDNSRecords r = .ok recs) ↔
          ∃ body p, r = .ok body p ∧ p.Status = "SUCCESS") := by
  refine ⟨?_, ?_, ?_⟩
  · intro r
    cases r with
    | sendError e => simp [updatePorkbunDNS]
    | readError e => simp [updatePorkbunDNS]
    | parseError e => simp [updatePorkbunDNS]
    | ok body p =>
      by_cases hp : p.Status = "SUCCESS"
      · simp only [updatePorkbunDNS, hp, if_true]
        simp only [true_iff]
        exact ⟨body, p, rfl, hp⟩
      · simp [updatePorkbunDNS, hp]
  · intro body p hp
    simp [updatePorkbunDNS, hp]
  · intro r
    cases r with
    | sendError e => simp [retrieveDNSRecords]
    | readError e => simp [retrieveDNSRecords]
    | parseError e => simp [retrieveDNSRecords]
    | ok body p =>
      by_cases hp : p.Status = "SUCCESS"
      · simp only [retrieveDNSRecords, hp, if_true]
        constructor
        · intro _
          exact ⟨body, p, rfl, hp⟩
        · intro _
          exact ⟨p.Records, rfl⟩
      · simp [retrieveDNSRecords, hp]

/-- Witness for C5: a response with status "ERROR" makes the edit call fail
with the raw body in the error. -/
theorem edit_and_retrieve_success_iff_status_witness :
    updatePorkbunDNS (PostResult.ok "bad-body" ⟨"ERROR", "invalid domain"⟩) =
      .error ("API error. body=" ++ "bad-body") :=
  edit_and_retrieve_success_iff_status.2.1 "bad-body" ⟨"ERROR", "invalid domain"⟩
    (by decide)

/-- C8: the effective record name is deterministic — base domain for the
empty subdomain label, `subdomain.domain` otherwise — and the rule used when
looking a record up in the fetched set (`expectedName` in `findDNSRecord`)
agrees with the rule used when reporting an updated record (`displayName` in
the update loop of `UpdateDDNS`). -/
theorem effective_record_name_deterministic :
    expectedName "example.com" "" = "example.com" ∧
    expectedName "example.com" "www" = "www.example.com" ∧
    ∀ domain subdomain, expectedName domain subdomain = displayName domain subdomain := by
  refine ⟨by decide, by decide, ?_⟩
  intro domain subdomain
  by_cases h : subdomain = "" <;> simp [expectedName, displayName, h]

/-- C9: a successful address-resolution call returns exactly the HTTP
response body with surrounding whitespace stripped, for any body whatsoever —
no validation of address syntax is performed. -/
theorem resolved_address_is_trimmed_body :
    ∀ body : String,
      getCurrentIPv4 (GetResult.ok body) = .ok (trimSpace body) ∧
      getCurrentIPv6 (GetResult.ok body) = .ok (trimSpace body) := by
  intro body
  exact ⟨rfl, rfl⟩

/-- C7: a failure while resolving the current IPv4 address, resolving the
current IPv6 address, or retrieving the existing DNS records terminates the
run with that error and an empty call trace — no record-update call is
attempted. -/
theorem early_failure_aborts_before_writes (env : Env) (config : Config) :
    (∀ e, getCurrentIPv4 env.ipv4Get = .error e →
        UpdateDDNS env config = some (.error e, [])) ∧
    (∀ ip4 e, getCurrentIPv4 env.ipv4Get = .ok ip4 →
        getCurrentIPv6 env.ipv6Get = .error e →
        UpdateDDNS env config = some (.error e, [])) ∧
    (∀ ip4 ip6 e, getCurrentIPv4 env.ipv4Get = .ok ip4 →
        getCurrentIPv6 env.ipv6Get = .ok ip6 →
        retrieveDNSRecords env.retrievePost = .error e →
        UpdateDDNS env config =
          some (.error ("failed to retrieve DNS records. err=" ++ e), [])) := by
  refine ⟨?_, ?_, ?_⟩
  · intro e he
    simp [UpdateDDNS, he]
  · intro ip4 e h4 h6
    simp [UpdateDDNS, h4, h6]
  · intro ip4 ip6 e h4 h6 hr
    simp [UpdateDDNS, h4, h6, hr]

/-- Witness for C7: a transport failure on the IPv4 echo endpoint aborts the
run with the wrapped error and no edit calls. -/
theorem early_failure_aborts_before_writes_witness :
    UpdateDDNS
      ⟨GetResult.sendError "no route", GetResult.ok "::1",
       PostResult.ok "raw" ⟨"SUCCESS", []⟩,
       fun _ _ _ => PostResult.ok "raw" ⟨"SUCCESS", ""⟩⟩
      ⟨"key", "secret", "example.com", ["", "www"], 600, "ip4.txt", "ip6.txt"⟩ =
      some (.error ("failed to get current IPv4. err=" ++ "no route"), []) :=
  (early_failure_aborts_before_writes _ _).1 _ rfl

/-- C10: once both address resolutions and the record retrieval have
succeeded, the workflow indexes the first element of the configured subdomain
list without a guard: with an empty list it panics (modelled as `none`)
instead of returning an error, and with a non-empty list the indexing is safe
and the run produces a result. -/
theorem subdomains_nonempty_precondition (env : Env) (config : Config)
    (ip4 ip6 : String) (records : List DNSRecord)
    (h4 : getCurrentIPv4 env.ipv4Get = .ok ip4)
    (h6 : getCurrentIPv6 env.ipv6Get = .ok ip6)
    (hr : retrieveDNSRecords env.retrievePost = .ok records) :
    (config.Subdomains = [] → UpdateDDNS env config = none) ∧
    (config.Subdomains ≠ [] → (UpdateDDNS env config).isSome = true) := by
  constructor
  · intro hnil
    simp [UpdateDDNS, h4, h6, hr, hnil]
  · intro hne
    match hs : config.Subdomains with
    | [] => exact absurd hs hne
    | s :: rest =>
      rw [UpdateDDNS_resolved env config ip4 ip6 records s rest h4 h6 hr hs]
      simp

/-- Witness for C10: a configuration with an empty subdomain list makes the
run panic (no result at all) even though every external call would have
succeeded. -/
theorem subdomains_nonempty_precondition_witness :
    UpdateDDNS envAllOk fixtureConfigNoNames = none :=
  (subdomains_nonempty_precondition envAllOk fixtureConfigNoNames
    (trimSpace "1.2.3.4") (trimSpace "::1") fixtureRecords
    (by decide) (by decide) (by decide)).1 rfl

/-- C3: when the current IPv4 and IPv6 addresses both equal the contents of
the first configured name's published A and AAAA records, the run terminates
successfully with an empty call trace — zero update calls are issued. -/
theorem noop_when_addresses_match (env : Env) (config : Config)
    (ip4 ip6 : String) (records : List DNSRecord) (s : String) (rest : List String)
    (ra raaaa : DNSRecord)
    (h4 : getCurrentIPv4 env.ipv4Get = .ok ip4)
    (h6 : getCurrentIPv6 env.ipv6Get = .ok ip6)
    (hr : retrieveDNSRecords env.retrievePost = .ok records)
    (hs : config.Subdomains = s :: rest)
    (hA : findDNSRecord records config.Domain s "A" = some ra)
    (hAc : ra.Content = ip4)
    (hB : findDNSRecord records config.Domain s "AAAA" = some raaaa)
    (hBc : raaaa.Content = ip6) :
    UpdateDDNS env config = some (.ok (), []) := by
  rw [UpdateDDNS_resolved env config ip4 ip6 records s rest h4 h6 hr hs]
  have hc4 : recordNeedsUpdate records config.Domain s "A" ip4 = false := by
    simp [recordNeedsUpdate, hA, hAc]
  have hc6 : recordNeedsUpdate records config.Domain s "AAAA" ip6 = false := by
    simp [recordNeedsUpdate, hB, hBc]
  simp [hc4, hc6]

/-- Witness for C3: with matching A and AAAA records published for the first
configured name, the run is a successful no-op. -/
theorem noop_when_addresses_match_witness :
    UpdateDDNS envAllOk fixtureConfig = some (.ok (), []) :=
  noop_when_addresses_match envAllOk fixtureConfig
    (trimSpace "1.2.3.4") (trimSpace "::1") fixtureRecords "" ["www"]
    recA0 recAAAA0
    (by decide) (by decide) (by decide) rfl
    (by decide) (by decide) (by decide) (by decide)

/-- C2: under the live-query strategy the per-family staleness decision is
`recordNeedsUpdate`, which holds exactly when the record is absent from the
fetched set or its content differs from the current address; the pair of
decisions is computed by looking up only the first configured name's records,
and (here under the hypothesis that every edit call succeeds, isolating the
decision logic) that single pair drives the upserts for every configured
name. -/
theorem stalenessB_first_name_decides_all (env : Env) (config : Config)
    (ip4 ip6 : String) (records : List DNSRecord) (s : String) (rest : List String)
    (h4 : getCurrentIPv4 env.ipv4Get = .ok ip4)
    (h6 : getCurrentIPv6 env.ipv6Get = .ok ip6)
    (hr : retrieveDNSRecords env.retrievePost = .ok records)
    (hs : config.Subdomains = s :: rest)
    (hall : ∀ sub ip t, updatePorkbunDNS (env.editPost sub ip t) = .ok ()) :
    (∀ (recs : List DNSRecord) (d sub t cur : String),
        recordNeedsUpdate recs d sub t cur = true ↔
          (findDNSRecord recs d sub t = none ∨
           ∃ r, findDNSRecord recs d sub t = some r ∧ r.Content ≠ cur)) ∧
    UpdateDDNS env config =
      some (.ok (), plannedCalls ip4 ip6
        (recordNeedsUpdate records config.Domain s "A" ip4)
        (recordNeedsUpdate records config.Domain s "AAAA" ip6) (s :: rest)) := by
  constructor
  · intro recs d sub t cur
    unfold recordNeedsUpdate
    cases hf : findDNSRecord recs d sub t with
    | none => simp [hf]
    | some r => simp [hf, bne_iff_ne]
  · rw [UpdateDDNS_resolved env config ip4 ip6 records s rest h4 h6 hr hs]
    by_cases hc : (recordNeedsUpdate records config.Domain s "A" ip4 ||
        recordNeedsUpdate records config.Domain s "AAAA" ip6) = true
    · rw [if_pos hc, updateSubdomains_all_success env config ip4 ip6 _ _ hall, hs]
    · rw [if_neg hc]
      simp only [Bool.or_eq_true, not_or, Bool.not_eq_true] at hc
      rw [hc.1, hc.2, plannedCalls_false_false]

/-- Witness for C2: a stale A record on the first configured name (the base
domain) drives one A upsert for each of the two configured names. -/
theorem stalenessB_first_name_decides_all_witness :
    UpdateDDNS envStale fixtureConfig =
      some (.ok (), [⟨"", "5.6.7.8", "A"⟩, ⟨"www", "5.6.7.8", "A"⟩]) := by
  have h := (stalenessB_first_name_decides_all envStale fixtureConfig
    (trimSpace "5.6.7.8") (trimSpace "::1") fixtureRecords "" ["www"]
    (by decide) (by decide) (by decide) rfl
    (fun sub ip t => rfl)).2
  rw [h]
  decide

/-- C6: once the run reaches the decision point, the decision pair is fixed:
whatever the edit calls return, the issued call trace is an initial segment
of the call sequence planned from that single pair — every configured name in
list order, the A upsert before the AAAA upsert — so all names see one
consistent view of which family changed. -/
theorem decision_fixed_once_before_writes (env : Env) (config : Config)
    (ip4 ip6 : String) (records : List DNSRecord) (s : String) (rest : List String)
    (h4 : getCurrentIPv4 env.ipv4Get = .ok ip4)
    (h6 : getCurrentIPv6 env.ipv6Get = .ok ip6)
    (hr : retrieveDNSRecords env.retrievePost = .ok records)
    (hs : config.Subdomains = s :: rest) :
    ∃ res calls, UpdateDDNS env config = some (res, calls) ∧
      ∃ suffix, plannedCalls ip4 ip6
          (recordNeedsUpdate records config.Domain s "A" ip4)
          (recordNeedsUpdate records config.Domain s "AAAA" ip6) config.Subdomains
        = calls ++ suffix := by
  rw [UpdateDDNS_resolved env config ip4 ip6 records s rest h4 h6 hr hs]
  by_cases hc : (recordNeedsUpdate records config.Domain s "A" ip4 ||
      recordNeedsUpdate records config.Domain s "AAAA" ip6) = true
  · rw [if_pos hc]
    refine ⟨(updateSubdomains env config ip4 ip6
        (recordNeedsUpdate records config.Domain s "A" ip4)
        (recordNeedsUpdate records config.Domain s "AAAA" ip6) config.Subdomains).1,
      (updateSubdomains env config ip4 ip6
        (recordNeedsUpdate records config.Domain s "A" ip4)
        (recordNeedsUpdate records config.Domain s "AAAA" ip6) config.Subdomains).2,
      by rw [Prod.mk.eta], ?_⟩
    exact updateSubdomains_trace_prefix env config ip4 ip6 _ _ config.Subdomains
  · rw [if_neg hc]
    simp only [Bool.or_eq_true, not_or, Bool.not_eq_true] at hc
    refine ⟨.ok (), [], rfl, plannedCalls ip4 ip6 false false config.Subdomains, ?_⟩
    rw [hc.1, hc.2]
    simp

/-- Witness for C6: with a stale A record and a failing edit on the second
name, the issued trace is a strict initial segment of the planned sequence. -/
theorem decision_fixed_once_before_writes_witness :
    ∃ res calls,
      UpdateDDNS envEditFail fixtureConfig = some (res, calls) ∧
      ∃ suffix, plannedCalls (trimSpace "5.6.7.8") (trimSpace "::1")
          (recordNeedsUpdate fixtureRecords fixtureConfig.Domain "" "A" (trimSpace "5.6.7.8"))
          (recordNeedsUpdate fixtureRecords fixtureConfig.Domain "" "AAAA" (trimSpace "::1"))
          fixtureConfig.Subdomains
        = calls ++ suffix :=
  decision_fixed_once_before_writes envEditFail fixtureConfig
    (trimSpace "5.6.7.8") (trimSpace "::1") fixtureRecords "" ["www"]
    (by decide) (by decide) (by decide) rfl

/-- C4: in every run that produced a result, a successful run had every
issued edit call answered with success, and a failed run with a non-empty
call trace stopped at the failing call: the trace ends with it, every
earlier call succeeded (so nothing was issued after the failure), and the
surfaced error wraps the edit error with the failing record's effective name
and its address family. -/
theorem upsert_failure_fails_run (env : Env) (config : Config)
    (res : Except String Unit) (calls : List UpsertCall)
    (h : UpdateDDNS env config = some (res, calls)) :
    (res = .ok () → ∀ c ∈ calls,
        updatePorkbunDNS (env.editPost c.subdomain c.ip c.recordType) = .ok ()) ∧
    (∀ e, res = .error e → calls ≠ [] →
      ∃ c prev, calls = prev ++ [c] ∧
        (∀ c0 ∈ prev, updatePorkbunDNS (env.editPost c0.subdomain c0.ip c0.recordType) = .ok ()) ∧
        ∃ e0, updatePorkbunDNS (env.editPost c.subdomain c.ip c.recordType) = .error e0 ∧
          ((c.recordType = "A" ∧
              e = "error updating IPv4 DDNS for " ++ displayName config.Domain c.subdomain
                  ++ ". err=" ++ e0) ∨
           (c.recordType = "AAAA" ∧
              e = "error updating IPv6 DDNS for " ++ displayName config.Domain c.subdomain
                  ++ ". err=" ++ e0))) := by
  cases hg4 : getCurrentIPv4 env.ipv4Get with
  | error e4 =>
    simp only [UpdateDDNS, hg4, Option.some.injEq, Prod.mk.injEq] at h
    obtain ⟨h1, h2⟩ := h
    subst h1
    subst h2
    constructor
    · intro hok
      simp at hok
    · intro e _ hne
      exact absurd rfl hne
  | ok ip4 =>
    cases hg6 : getCurrentIPv6 env.ipv6Get with
    | error e6 =>
      simp only [UpdateDDNS, hg4, hg6, Option.some.injEq, Prod.mk.injEq] at h
      obtain ⟨h1, h2⟩ := h
      subst h1
      subst h2
      constructor
      · intro hok
        simp at hok
      · intro e _ hne
        exact absurd rfl hne
    | ok ip6 =>
      cases hgr : retrieveDNSRecords env.retrievePost with
      | error er =>
        simp only [UpdateDDNS, hg4, hg6, hgr, Option.some.injEq, Prod.mk.injEq] at h
        obtain ⟨h1, h2⟩ := h
        subst h1
        subst h2
        constructor
        · intro hok
          simp at hok
        · intro e _ hne
          exact absurd rfl hne
      | ok records =>
        cases hsub : config.Subdomains with
        | nil =>
          rw [UpdateDDNS, hg4, hg6] at h
          simp only [hgr, hsub] at h
          simp at h
        | cons s rest =>
          rw [UpdateDDNS_resolved env config ip4 ip6 records s rest hg4 hg6 hgr hsub] at h
          by_cases hc : (recordNeedsUpdate records config.Domain s "A" ip4 ||
              recordNeedsUpdate records config.Domain s "AAAA" ip6) = true
          · rw [if_pos hc] at h
            simp only [Option.some.injEq] at h
            have hres : (updateSubdomains env config ip4 ip6
                (recordNeedsUpdate records config.Domain s "A" ip4)
                (recordNeedsUpdate records config.Domain s "AAAA" ip6) config.Subdomains).1
                = res := by rw [h]
            have hcalls : (updateSubdomains env config ip4 ip6
                (recordNeedsUpdate records config.Domain s "A" ip4)
                (recordNeedsUpdate records config.Domain s "AAAA" ip6) config.Subdomains).2
                = calls := by rw [h]
            constructor
            · intro hok c hcmem
              have hall := updateSubdomains_ok env config ip4 ip6
                (recordNeedsUpdate records config.Domain s "A" ip4)
                (recordNeedsUpdate records config.Domain s "AAAA" ip6) config.Subdomains ()
                (by rw [hres, hok])
              rw [← hcalls] at hcmem
              exact hall.2 c hcmem
            · intro e hrese _
              obtain ⟨c, prev, hsplit, hprev, e0, he0, hshape⟩ :=
                updateSubdomains_error env config ip4 ip6
                  (recordNeedsUpdate records config.Domain s "A" ip4)
                  (recordNeedsUpdate records config.Domain s "AAAA" ip6) config.Subdomains e
                  (by rw [hres, hrese])
              refine ⟨c, prev, by rw [← hcalls]; exact hsplit, hprev, e0, he0, ?_⟩
              rcases hshape with ⟨hT, _, he⟩ | ⟨hT, _, he⟩
              · exact Or.inl ⟨hT, he⟩
              · exact Or.inr ⟨hT, he⟩
          · rw [if_neg hc] at h
            simp only [Option.some.injEq, Prod.mk.injEq] at h
            obtain ⟨h1, h2⟩ := h
            subst h1
            subst h2
            constructor
            · intro _ c hcmem
              simp at hcmem
            · intro e hrese
              simp at hrese

/-- Witness for C4: in the failing run of `envEditFail`, the trace ends at
the failing `www` A-record call, the one call before it succeeded, and the
surfaced error names `www.example.com` and the IPv4 family. -/
theorem upsert_failure_fails_run_witness :
    ∃ c prev,
      ([⟨"", trimSpace "5.6.7.8", "A"⟩, ⟨"www", trimSpace "5.6.7.8", "A"⟩] : List UpsertCall)
        = prev ++ [c] ∧
      (∀ c0 ∈ prev,
        updatePorkbunDNS (envEditFail.editPost c0.subdomain c0.ip c0.recordType) = .ok ()) ∧
      ∃ e0, updatePorkbunDNS (envEditFail.editPost c.subdomain c.ip c.recordType) = .error e0 ∧
        ((c.recordType = "A" ∧
            "error updating IPv4 DDNS for www.example.com. err=API error. body=bad-body" =
              "error updating IPv4 DDNS for " ++ displayName fixtureConfig.Domain c.subdomain
                ++ ". err=" ++ e0) ∨
         (c.recordType = "AAAA" ∧
            "error updating IPv4 DDNS for www.example.com. err=API error. body=bad-body" =
              "error updating IPv6 DDNS for " ++ displayName fixtureConfig.Domain c.subdomain
                ++ ". err=" ++ e0)) :=
  (upsert_failure_fails_run envEditFail fixtureConfig
    (.error "error updating IPv4 DDNS for www.example.com. err=API error. body=bad-body")
    [⟨"", trimSpace "5.6.7.8", "A"⟩, ⟨"www", trimSpace "5.6.7.8", "A"⟩]
    (by decide)).2
    "error updating IPv4 DDNS for www.example.com. err=API error. body=bad-body"
    rfl (by decide)

/-- C1: under Strategy A (modelled from the spec), the cache artifacts are
committed only after a fully successful run: a failed run leaves both
artifacts exactly as they were before the run, and whenever the post-run
cache differs from the pre-run cache the run succeeded, every issued upsert
was answered with success, and the issued calls were the full planned
sequence over every configured name. -/
theorem strategyA_commit_after_success (env : Env) (config : Config) (cache : CacheState) :
    (∀ e, (UpdateDDNSCached env config cache).1 = .error e →
        (UpdateDDNSCached env config cache).2.1 = cache) ∧
    ((UpdateDDNSCached env config cache).2.1 ≠ cache →
        (UpdateDDNSCached env config cache).1 = .ok () ∧
        (∀ c ∈ (UpdateDDNSCached env config cache).2.2,
          updatePorkbunDNS (env.editPost c.subdomain c.ip c.recordType) = .ok ()) ∧
        ∃ ip4 ip6, getCurrentIPv4 env.ipv4Get = .ok ip4 ∧
          getCurrentIPv6 env.ipv6Get = .ok ip6 ∧
          (UpdateDDNSCached env config cache).2.2 =
            plannedCalls ip4 ip6 (ip4 != cache.ipv4Artifact.getD "")
              (ip6 != cache.ipv6Artifact.getD "") config.Subdomains) := by
  cases hg4 : getCurrentIPv4 env.ipv4Get with
  | error e4 =>
    constructor
    · intro e _
      simp [UpdateDDNSCached, hg4]
    · intro hne
      exact absurd (by simp [UpdateDDNSCached, hg4]) hne
  | ok ip4 =>
    cases hg6 : getCurrentIPv6 env.ipv6Get with
    | error e6 =>
      constructor
      · intro e _
        simp [UpdateDDNSCached, hg4, hg6]
      · intro hne
        exact absurd (by simp [UpdateDDNSCached, hg4, hg6]) hne
    | ok ip6 =>
      by_cases hcond : ((ip4 != cache.ipv4Artifact.getD "") ||
          (ip6 != cache.ipv6Artifact.getD "")) = true
      · cases hloop : updateSubdomains env config ip4 ip6
            (ip4 != cache.ipv4Artifact.getD "") (ip6 != cache.ipv6Artifact.getD "")
            config.Subdomains with
        | mk lres lcalls =>
          cases lres with
          | error e =>
            have heq : UpdateDDNSCached env config cache = (.error e, cache, lcalls) := by
              simp [UpdateDDNSCached, hg4, hg6, hcond, hloop]
            constructor
            · intro e1 _
              rw [heq]
            · intro hne
              rw [heq] at hne
              exact absurd rfl hne
          | ok u =>
            have heq : UpdateDDNSCached env config cache =
                (.ok (), ⟨some ip4, some ip6⟩, lcalls) := by
              simp [UpdateDDNSCached, hg4, hg6, hcond, hloop]
            have hall := updateSubdomains_ok env config ip4 ip6
              (ip4 != cache.ipv4Artifact.getD "") (ip6 != cache.ipv6Artifact.getD "")
              config.Subdomains u (by rw [hloop])
            constructor
            · intro e1 habs
              rw [heq] at habs
              simp at habs
            · intro _
              refine ⟨by rw [heq], ?_, ip4, ip6, rfl, rfl, ?_⟩
              · intro c hcmem
                rw [heq] at hcmem
                have hcmem2 : c ∈ (updateSubdomains env config ip4 ip6
                    (ip4 != cache.ipv4Artifact.getD "") (ip6 != cache.ipv6Artifact.getD "")
                    config.Subdomains).2 := by rw [hloop]; exact hcmem
                exact hall.2 c hcmem2
              · have hlc : lcalls = (updateSubdomains env config ip4 ip6
                    (ip4 != cache.ipv4Artifact.getD "") (ip6 != cache.ipv6Artifact.getD "")
                    config.Subdomains).2 := by rw [hloop]
                have h1 := hall.1
                rw [← hlc] at h1
                rw [heq]
                exact h1
      · have heq : UpdateDDNSCached env config cache = (.ok (), cache, []) := by
          simp only [UpdateDDNSCached, hg4, hg6]
          rw [if_neg hcond]
        constructor
        · intro e habs
          rw [heq] at habs
          simp at habs
        · intro hne
          rw [heq] at hne
          exact absurd rfl hne

/-- Witness for C1: the failing Strategy A run of `envEditFail` leaves the
pre-run cache artifacts untouched. -/
theorem strategyA_commit_after_success_witness :
    (UpdateDDNSCached envEditFail fixtureConfig ⟨some "1.2.3.4", some "::1"⟩).2.1 =
      ⟨some "1.2.3.4", some "::1"⟩ :=
  (strategyA_commit_after_success envEditFail fixtureConfig ⟨some "1.2.3.4", some "::1"⟩).1
    "error updating IPv4 DDNS for www.example.com. err=API error. body=bad-body"
    (by decide)

end PorkbunDDNS
